import Mathlib

/-!
Shallow embedding of the timed arithmetic-challenge engine of
01-MathsQuiz.py (with the constants of config/settings.py and the
arithmetic helper of utils/helpers.py).

Modelling conventions:
- Python integers are `Int`.
- GUI calls (show_feedback, label config, disabling widgets) are modelled
  as emitted events (`Ev`) or as boolean state flags.
- The tkinter after-callbacks are modelled as external commands (`Cmd`)
  gated on state flags that stand for "a callback is scheduled":
  `timer_running` models `Game.timer_reference` holding a pending
  `after(1000, update_timer_display)` callback, and `pending_advance`
  models a pending `after(_, advance_to_next)` callback.  `input_enabled`
  models the state of the answer entry and SOLVE button
  (enable_player_input / disable_player_input).
- Calls to `random` are passed in explicitly as a `Draws` record.
- A submission carries `Option Int`: `some n` models `int(text)`
  succeeding with value `n`, `none` models `int(text)` raising
  `ValueError` (the text does not parse as an integer).
-/

/-- Constant GAME_DURATION of config/settings.py: the per-challenge timer
duration in seconds. -/
def GAME_DURATION : Int := 25

/-- Constant MAX_CHALLENGES of config/settings.py: the number of
challenges in a session. -/
def MAX_CHALLENGES : Nat := 10

/-- One member of the GameLevel enum of 01-MathsQuiz.py.  The theme
color and background-image path carried by the Python enum value are
presentation metadata and are omitted. -/
structure GameLevel where
  level_id : Nat
  min_value : Int
  max_value : Int
deriving DecidableEq

/-- GameLevel.BEGINNER: id 0, operand range 1..15. -/
def BEGINNER : GameLevel := ⟨0, 1, 15⟩

/-- GameLevel.EXPLORER: id 1, operand range 10..50. -/
def EXPLORER : GameLevel := ⟨1, 10, 50⟩

/-- GameLevel.MASTER: id 2, operand range 50..200. -/
def MASTER : GameLevel := ⟨2, 50, 200⟩

/-- The operator of a challenge: one of the Python characters
'+', '-', '*'. -/
inductive Op where
  | add
  | sub
  | mul
deriving DecidableEq

/-- The tuple `Game.active_challenge = (num1, num2, operation)`. -/
structure Challenge where
  num1 : Int
  num2 : Int
  op : Op
deriving DecidableEq

/-- An entry of the Python list `Game.active_powerups`.  The only string
the source ever appends is the literal `'double_points'`, so the list
elements form a one-constructor type; both Python membership tests
(`'double_points' in Game.active_powerups` in apply_powerup_effects and
`any('double' in p for p in Game.active_powerups)` in
activate_double_points) coincide with membership of this constructor. -/
inductive PowerUp where
  | double_points
deriving DecidableEq

/-- The kind of a show_feedback call, by call site. -/
inductive FeedbackKind where
  | success (base_points : Int)
  | retry
  | answerRevealed (correct : Int)
  | invalidInput
  | timeBoostApplied
  | doubleArmed
  | doubleApplied (final_points : Int)
  | noBoosts
  | alreadyActive
deriving DecidableEq

/-- Semantic events emitted to the presentation layer.  `timerTick`
models the timer label update, `expiry` the TIME'S UP feedback of
time_expired (carrying the surfaced correct answer), `scoreUpdated` and
`chargesUpdated` the score and boost labels, `sessionFinished` the final
message box, and `pythonError` an uncaught Python exception. -/
inductive Ev where
  | challengePresented (index : Nat)
  | timerTick (secondsRemaining : Int)
  | feedback (kind : FeedbackKind)
  | expiry (correct : Int)
  | scoreUpdated (newScore : Int)
  | chargesUpdated (remaining : Int)
  | sessionFinished (finalScore maxScore : Int) (rating message : String)
  | pythonError
deriving DecidableEq

/-- The mutable fields of the GameSession class, plus the three callback
and widget flags described in the module comment. -/
structure GameSession where
  current_level : GameLevel
  points : Int
  problems_solved : Nat
  active_challenge : Option Challenge
  attempts_made : Nat
  remaining_time : Int
  active_powerups : List PowerUp
  powerup_charges : Int
  timer_running : Bool
  input_enabled : Bool
  pending_advance : Bool
deriving DecidableEq

/-- The random draws consumed by one call to present_challenge:
`num1 = generate_number(level)`, `num2 = generate_number(level)`,
`op = select_operation()`, and `mul_redraw = random.randint(2, 5)` as
drawn in the beginner-multiplication branch. -/
structure Draws where
  num1 : Int
  num2 : Int
  op : Op
  mul_redraw : Int
deriving DecidableEq

/-- External commands: a submission (with its parse outcome), a scheduled
timer callback firing, a scheduled advance_to_next callback firing (with
the draws the next present_challenge will consume), and the two power-up
buttons. -/
inductive Cmd where
  | submit (input : Option Int)
  | tick
  | advance (d : Draws)
  | timeBoost
  | doublePoints
deriving DecidableEq

/-- MathHelper.calculate_result of utils/helpers.py; the same
if/elif arithmetic chain is inlined in GameEngine.verify_solution and in
time_expired. -/
def calculate_result (number1 number2 : Int) (operation : Op) : Int :=
  match operation with
  | Op.add => number1 + number2
  | Op.sub => number1 - number2
  | Op.mul => number1 * number2

/-- GameSession.initialize_new_game: reset every session field for a new
game at the selected level. -/
def init_new_game (selected_level : GameLevel) : GameSession where
  current_level := selected_level
  points := 0
  problems_solved := 0
  active_challenge := none
  attempts_made := 0
  remaining_time := GAME_DURATION
  active_powerups := []
  powerup_charges := 3
  timer_running := false
  input_enabled := true
  pending_advance := false

/-- stop_timer: after_cancel the pending timer callback (no-op when none
is pending). -/
def stop_timer (g : GameSession) : GameSession :=
  { g with timer_running := false }

/-- time_expired: unpack the active challenge, surface the correct
answer, disable input and schedule advance_to_next.  Unpacking `None`
raises a Python TypeError, modelled by `pythonError` with no state
change.  No further timer callback is scheduled. -/
def time_expired (g : GameSession) : GameSession × List Ev :=
  match g.active_challenge with
  | none => (g, [Ev.pythonError])
  | some c =>
      ({ g with input_enabled := false, pending_advance := true },
       [Ev.expiry (calculate_result c.num1 c.num2 c.op)])

/-- update_timer_display: if remaining time is still nonnegative, show
it, decrement it and reschedule itself in one second; otherwise the time
has run out. -/
def update_timer_display (g : GameSession) : GameSession × List Ev :=
  if 0 ≤ g.remaining_time then
    ({ g with remaining_time := g.remaining_time - 1, timer_running := true },
     [Ev.timerTick g.remaining_time])
  else
    time_expired g

/-- begin_countdown: reset remaining time to GAME_DURATION and run
update_timer_display immediately (which displays the full duration,
decrements, and schedules the next tick). -/
def begin_countdown (g : GameSession) : GameSession × List Ev :=
  update_timer_display { g with remaining_time := GAME_DURATION }

/-- The outcome of GameEngine.verify_solution: the returned pair
`(is_correct, base_points)` plus the session mutations and feedback the
call performs. -/
structure VerifyResult where
  is_correct : Bool
  base_points : Int
  session : GameSession
  events : List Ev
deriving DecidableEq

/-- GameEngine.verify_solution: compare the submitted answer with the
computed result; on success award 15 base points on the first attempt
and 7 otherwise; on failure increment the attempt counter, and either
offer a retry (clearing the input and restarting the timer) while fewer
than two attempts have been made, or reveal the answer. -/
def verify_solution (g : GameSession) (num1 num2 : Int) (operation : Op)
    (player_answer : Int) : VerifyResult :=
  let correct := calculate_result num1 num2 operation
  if player_answer = correct then
    let base_points : Int := if g.attempts_made = 0 then 15 else 7
    ⟨true, base_points, g, [Ev.feedback (FeedbackKind.success base_points)]⟩
  else
    let g2 := { g with attempts_made := g.attempts_made + 1 }
    if g2.attempts_made < 2 then
      let r := begin_countdown g2
      ⟨false, 0, r.1, Ev.feedback FeedbackKind.retry :: r.2⟩
    else
      ⟨false, 0, g2, [Ev.feedback (FeedbackKind.answerRevealed correct)]⟩

/-- A performance rating: label and message (the emoji suffixes of the
source labels are dropped). -/
structure RatingInfo where
  rating : String
  message : String
deriving DecidableEq

/-- The rating chain of GameEngine.show_final_results: an if/elif
cascade over the final score, highest threshold first. -/
def computeRating (final_score : Int) : RatingInfo :=
  if 135 ≤ final_score then
    ⟨"COSMIC GENIUS", "Your math skills are out of this world!"⟩
  else if 120 ≤ final_score then
    ⟨"GALACTIC SCHOLAR", "Amazing mathematical journey!"⟩
  else if 90 ≤ final_score then
    ⟨"SPACE EXPLORER", "Great problem-solving skills!"⟩
  else if 60 ≤ final_score then
    ⟨"PLANET TRAVELER", "Good effort! Keep practicing!"⟩
  else
    ⟨"SPACE CADET", "The stars await your improvement!"⟩

/-- GameEngine.show_final_results: the final score, the reported
maximum score `15 * MAX_CHALLENGES`, and the rating; the summary-string
formatting is presentation and omitted. -/
def show_final_results (g : GameSession) : Int × Int × RatingInfo :=
  (g.points, 15 * (MAX_CHALLENGES : Int), computeRating g.points)

/-- show_game_results: stop the timer and report the final summary. -/
def show_game_results (g : GameSession) : GameSession × List Ev :=
  let g1 := stop_timer g
  let r := show_final_results g1
  (g1, [Ev.sessionFinished r.1 r.2.1 r.2.2.rating r.2.2.message])

/-- activate_time_boost: when a charge remains, add 15 seconds to the
remaining time and consume a charge; otherwise report that no boosts
remain, without side effect. -/
def activate_time_boost (g : GameSession) : GameSession × List Ev :=
  if 0 < g.powerup_charges then
    let g2 := { g with remaining_time := g.remaining_time + 15,
                       powerup_charges := g.powerup_charges - 1 }
    (g2, [Ev.chargesUpdated g2.powerup_charges,
          Ev.feedback FeedbackKind.timeBoostApplied])
  else
    (g, [Ev.feedback FeedbackKind.noBoosts])

/-- activate_double_points: when a charge remains and no double-points
entry is active, append one and consume a charge; with no charges left
report that; otherwise report that it is already active. -/
def activate_double_points (g : GameSession) : GameSession × List Ev :=
  if 0 < g.powerup_charges ∧ PowerUp.double_points ∉ g.active_powerups then
    let g2 := { g with
                active_powerups := g.active_powerups ++ [PowerUp.double_points],
                powerup_charges := g.powerup_charges - 1 }
    (g2, [Ev.chargesUpdated g2.powerup_charges,
          Ev.feedback FeedbackKind.doubleArmed])
  else if g.powerup_charges ≤ 0 then
    (g, [Ev.feedback FeedbackKind.noBoosts])
  else
    (g, [Ev.feedback FeedbackKind.alreadyActive])

/-- The outcome of apply_powerup_effects: the returned points plus the
session mutation and feedback. -/
structure PowerUpResult where
  final_points : Int
  session : GameSession
  events : List Ev
deriving DecidableEq

/-- apply_powerup_effects: when double points is active, double the
points and remove the entry (single consumption); otherwise the points
pass through unchanged. -/
def apply_powerup_effects (g : GameSession) (points : Int) : PowerUpResult :=
  if PowerUp.double_points ∈ g.active_powerups then
    let final_points := points * 2
    ⟨final_points,
     { g with active_powerups := g.active_powerups.erase PowerUp.double_points },
     [Ev.feedback (FeedbackKind.doubleApplied final_points)]⟩
  else
    ⟨points, g, []⟩

/-- GameEngine.present_challenge: take the two operand draws and the
operator draw, swap the operands when a subtraction would go negative,
redraw the second operand from 2..5 for a beginner multiplication,
record the challenge, reset the attempt counter and start the
countdown. -/
def present_challenge (g : GameSession) (level : GameLevel) (d : Draws) :
    GameSession × List Ev :=
  let p : Int × Int :=
    if d.op = Op.sub ∧ d.num1 < d.num2 then (d.num2, d.num1)
    else if d.op = Op.mul ∧ level = BEGINNER then (d.num1, d.mul_redraw)
    else (d.num1, d.num2)
  let g2 := { g with active_challenge := some ⟨p.1, p.2, d.op⟩,
                     attempts_made := 0 }
  let r := begin_countdown g2
  (r.1, Ev.challengePresented (g.problems_solved + 1) :: r.2)

/-- check_player_answer: stop the timer; on a parse failure emit the
invalid-input feedback and restart the timer without touching anything
else; otherwise verify the answer, and on success apply power-up
effects, add the points, lock the input and schedule the advance, while
on a second failed attempt lock the input and schedule the advance. -/
def check_player_answer (g : GameSession) (input : Option Int) :
    GameSession × List Ev :=
  let g1 := stop_timer g
  match input with
  | none =>
      let r := begin_countdown g1
      (r.1, Ev.feedback FeedbackKind.invalidInput :: r.2)
  | some player_answer =>
      match g1.active_challenge with
      | none => (g1, [Ev.pythonError])
      | some c =>
          let v := verify_solution g1 c.num1 c.num2 c.op player_answer
          if v.is_correct then
            let a := apply_powerup_effects v.session v.base_points
            let g2 := { a.session with
                        points := a.session.points + a.final_points,
                        input_enabled := false,
                        pending_advance := true }
            (g2, v.events ++ a.events ++ [Ev.scoreUpdated g2.points])
          else
            if 2 ≤ v.session.attempts_made then
              ({ v.session with input_enabled := false,
                                pending_advance := true },
               v.events ++ [Ev.scoreUpdated v.session.points])
            else
              (v.session, v.events)

/-- advance_to_next: stop the timer, count the finished challenge, and
either re-enable input and present the next challenge, or show the final
results once the quota is reached. -/
def advance_to_next (g : GameSession) (d : Draws) : GameSession × List Ev :=
  let g1 := stop_timer g
  let g2 := { g1 with problems_solved := g1.problems_solved + 1 }
  if g2.problems_solved < MAX_CHALLENGES then
    present_challenge { g2 with input_enabled := true } g2.current_level d
  else
    show_game_results g2

/-- start_space_adventure: reset the session, enable input, refresh the
score and boost labels and present the first challenge. -/
def start_space_adventure (selected_level : GameLevel) (d : Draws) :
    GameSession × List Ev :=
  let g := init_new_game selected_level
  let r := present_challenge g g.current_level d
  (r.1, Ev.scoreUpdated g.points :: Ev.chargesUpdated g.powerup_charges :: r.2)

/-- One externally triggered transition.  A submission reaches
check_player_answer only while the input widgets are enabled; a timer
callback fires only while one is scheduled (and consumes itself before
running update_timer_display, which reschedules); an advance callback
fires only while one is pending; the power-up buttons are always
live. -/
def step (g : GameSession) (c : Cmd) : GameSession × List Ev :=
  match c with
  | Cmd.submit input =>
      if g.input_enabled then check_player_answer g input else (g, [])
  | Cmd.tick =>
      if g.timer_running then
        update_timer_display { g with timer_running := false }
      else (g, [])
  | Cmd.advance d =>
      if g.pending_advance then
        advance_to_next { g with pending_advance := false } d
      else (g, [])
  | Cmd.timeBoost => activate_time_boost g
  | Cmd.doublePoints => activate_double_points g

/-- Run a sequence of commands from a state, collecting the emitted
events in order. -/
def run (g : GameSession) : List Cmd → GameSession × List Ev
  | [] => (g, [])
  | c :: cs =>
      let s := step g c
      let r := run s.1 cs
      (r.1, s.2 ++ r.2)

/-- The rating table read off show_final_results as data: threshold, label
and message, ordered highest threshold first (the lowest tier has no
threshold and is the fall-through). -/
def ratingTiers : List (Int × RatingInfo) :=
  [(135, ⟨"COSMIC GENIUS", "Your math skills are out of this world!"⟩),
   (120, ⟨"GALACTIC SCHOLAR", "Amazing mathematical journey!"⟩),
   (90, ⟨"SPACE EXPLORER", "Great problem-solving skills!"⟩),
   (60, ⟨"PLANET TRAVELER", "Good effort! Keep practicing!"⟩)]

/-- The fall-through lowest tier of the rating table. -/
def lowest_tier : RatingInfo :=
  ⟨"SPACE CADET", "The stars await your improvement!"⟩

/-- Modelled from the spec: the first tier of the ordered table whose
threshold the score meets or exceeds, falling through to the lowest tier
if none match. -/
def firstMatchingTier (score : Int) : RatingInfo :=
  match ratingTiers.find? (fun t => decide (t.1 ≤ score)) with
  | some t => t.2
  | none => lowest_tier

/-- The rating table with thresholds as percentages of the maximum:
135, 120, 90, 60 out of a maximum of 150 are 90, 80, 60, 40 percent. -/
def pctTiers : List (Int × RatingInfo) :=
  [(90, ⟨"COSMIC GENIUS", "Your math skills are out of this world!"⟩),
   (80, ⟨"GALACTIC SCHOLAR", "Amazing mathematical journey!"⟩),
   (60, ⟨"SPACE EXPLORER", "Great problem-solving skills!"⟩),
   (40, ⟨"PLANET TRAVELER", "Good effort! Keep practicing!"⟩)]

/-- Modelled from the spec: evaluate the score's percentage-of-maximum
against the ordered percentage-threshold table, first match wins, fall
through to the lowest tier.  A score meets percentage threshold `p` of
`maxPossible` when `100 * score ≥ p * maxPossible`. -/
def firstMatchingPctTier (score maxPossible : Int) : RatingInfo :=
  match pctTiers.find? (fun t => decide (t.1 * maxPossible ≤ 100 * score)) with
  | some t => t.2
  | none => lowest_tier

/-- C1: computeRating evaluates the score against the ordered table of
thresholds (highest first) and returns the label and message of the
first tier whose threshold the score meets or exceeds, falling through
to the lowest tier; equivalently, it evaluates the score's
percentage-of-maximum against the percentage table for the fixed maximum
`15 * MAX_CHALLENGES = 150`.  For final score 95 it selects the tier
whose threshold is 90 (SPACE EXPLORER), not the 135 or 120 tiers. -/
theorem computeRating_first_tier_wins :
    (∀ score : Int, computeRating score = firstMatchingTier score) ∧
    (∀ score : Int,
        computeRating score = firstMatchingPctTier score (15 * (MAX_CHALLENGES : Int))) ∧
    computeRating 95 = RatingInfo.mk "SPACE EXPLORER" "Great problem-solving skills!" ∧
    ((90 : Int), RatingInfo.mk "SPACE EXPLORER" "Great problem-solving skills!") ∈ ratingTiers ∧
    (∀ r ∈ ratingTiers, r.1 = 135 ∨ r.1 = 120 → computeRating 95 ≠ r.2) := by
  refine ⟨?_, ?_, by decide, by decide, by decide⟩
  · intro score
    unfold computeRating firstMatchingTier ratingTiers lowest_tier
    split_ifs with h1 h2 h3 h4
    · simp [List.find?, h1]
    · simp [List.find?, h1, h2]
    · simp [List.find?, h1, h2, h3]
    · simp [List.find?, h1, h2, h3, h4]
    · simp [List.find?, h1, h2, h3, h4]
  · intro score
    have e1 : ((90 : Int) * (15 * (MAX_CHALLENGES : Int)) ≤ 100 * score) ↔ 135 ≤ score := by
      unfold MAX_CHALLENGES; omega
    have e2 : ((80 : Int) * (15 * (MAX_CHALLENGES : Int)) ≤ 100 * score) ↔ 120 ≤ score := by
      unfold MAX_CHALLENGES; omega
    have e3 : ((60 : Int) * (15 * (MAX_CHALLENGES : Int)) ≤ 100 * score) ↔ 90 ≤ score := by
      unfold MAX_CHALLENGES; omega
    have e4 : ((40 : Int) * (15 * (MAX_CHALLENGES : Int)) ≤ 100 * score) ↔ 60 ≤ score := by
      unfold MAX_CHALLENGES; omega
    unfold computeRating firstMatchingPctTier pctTiers lowest_tier
    split_ifs with h1 h2 h3 h4
    · simp [List.find?, e1, h1]
    · simp [List.find?, e1, e2, h1, h2]
    · simp [List.find?, e1, e2, e3, h1, h2, h3]
    · simp [List.find?, e1, e2, e3, e4, h1, h2, h3, h4]
    · simp [List.find?, e1, e2, e3, e4, h1, h2, h3, h4]

/-- C3: with attemptsSoFar in 0..1, verify_solution returns basePoints 15
exactly when the answer is correct on attempt 0, basePoints 7 exactly
when it is correct on attempt 1, and basePoints 0 exactly when it is
incorrect; the returned correctness flag matches the arithmetic. -/
theorem verify_solution_base_points (g : GameSession) (num1 num2 : Int)
    (operation : Op) (player_answer : Int)
    (h : g.attempts_made = 0 ∨ g.attempts_made = 1) :
    ((verify_solution g num1 num2 operation player_answer).base_points = 15 ↔
        (player_answer = calculate_result num1 num2 operation ∧
         g.attempts_made = 0)) ∧
    ((verify_solution g num1 num2 operation player_answer).base_points = 7 ↔
        (player_answer = calculate_result num1 num2 operation ∧
         g.attempts_made = 1)) ∧
    ((verify_solution g num1 num2 operation player_answer).base_points = 0 ↔
        player_answer ≠ calculate_result num1 num2 operation) ∧
    ((verify_solution g num1 num2 operation player_answer).is_correct = true ↔
        player_answer = calculate_result num1 num2 operation) := by
  unfold verify_solution
  by_cases hc : player_answer = calculate_result num1 num2 operation
  · rcases h with h0 | h1
    · simp [hc, h0]
    · simp [hc, h1]
  · rcases h with h0 | h1
    · simp [hc, h0]
    · simp [hc, h1]

/-- C3 witness: a correct first-attempt answer earns base points 15. -/
theorem verify_solution_base_points_witness :
    ((verify_solution (init_new_game BEGINNER) 5 3 Op.add 8).base_points = 15 ↔
        ((8 : Int) = calculate_result 5 3 Op.add ∧
         (init_new_game BEGINNER).attempts_made = 0)) ∧
    ((verify_solution (init_new_game BEGINNER) 5 3 Op.add 8).base_points = 7 ↔
        ((8 : Int) = calculate_result 5 3 Op.add ∧
         (init_new_game BEGINNER).attempts_made = 1)) ∧
    ((verify_solution (init_new_game BEGINNER) 5 3 Op.add 8).base_points = 0 ↔
        (8 : Int) ≠ calculate_result 5 3 Op.add) ∧
    ((verify_solution (init_new_game BEGINNER) 5 3 Op.add 8).is_correct = true ↔
        (8 : Int) = calculate_result 5 3 Op.add) :=
  verify_solution_base_points (init_new_game BEGINNER) 5 3 Op.add 8 (Or.inl rfl)

/-- C8: when the drawn operator is subtraction, present_challenge records
a challenge whose larger operand is first, so its expected result is
nonnegative. -/
theorem subtraction_result_nonneg (g : GameSession) (level : GameLevel)
    (d : Draws) (h : d.op = Op.sub) :
    ∃ c : Challenge,
      (present_challenge g level d).1.active_challenge = some c ∧
      c.op = Op.sub ∧ 0 ≤ calculate_result c.num1 c.num2 c.op := by
  by_cases hlt : d.num1 < d.num2
  · refine ⟨⟨d.num2, d.num1, d.op⟩, ?_, h, ?_⟩
    · simp [present_challenge, begin_countdown, update_timer_display,
        GAME_DURATION, h, hlt]
    · simp [calculate_result, h]
      omega
  · refine ⟨⟨d.num1, d.num2, d.op⟩, ?_, h, ?_⟩
    · simp [present_challenge, begin_countdown, update_timer_display,
        GAME_DURATION, h, hlt]
    · simp [calculate_result, h]
      omega

/-- C8 witness: the spec scenario draw a=5, b=10, operator subtraction is
swapped to the challenge 10 - 5 with expected result 5. -/
theorem subtraction_result_nonneg_witness :
    ∃ c : Challenge,
      (present_challenge (init_new_game BEGINNER) BEGINNER
          ⟨5, 10, Op.sub, 2⟩).1.active_challenge = some c ∧
      c.op = Op.sub ∧ 0 ≤ calculate_result c.num1 c.num2 c.op :=
  subtraction_result_nonneg (init_new_game BEGINNER) BEGINNER
    ⟨5, 10, Op.sub, 2⟩ rfl

/-- A concrete mid-session state used by the witness theorems: the
challenge 5 + 3 is active, one failed attempt has been made, the timer
is running at 24 seconds, DoublePoints is armed and two charges
remain. -/
def gTest : GameSession where
  current_level := BEGINNER
  points := 0
  problems_solved := 0
  active_challenge := some ⟨5, 3, Op.add⟩
  attempts_made := 1
  remaining_time := 24
  active_powerups := [PowerUp.double_points]
  powerup_charges := 2
  timer_running := true
  input_enabled := true
  pending_advance := false

/-- The state gTest with all power-up charges spent. -/
def gZero : GameSession :=
  { gTest with powerup_charges := 0 }

/-- C5: a submission whose raw text does not parse as an integer is
rejected before verification: the attempt counter, score and active
challenge are unchanged, the timer is restarted from the full duration
(displaying GAME_DURATION and holding GAME_DURATION - 1 after the
immediate update), and an invalid-input feedback event is emitted. -/
theorem invalid_submission_recovered (g : GameSession)
    (he : g.input_enabled = true) :
    (step g (Cmd.submit none)).1 =
      { g with remaining_time := GAME_DURATION - 1, timer_running := true } ∧
    (step g (Cmd.submit none)).1.attempts_made = g.attempts_made ∧
    (step g (Cmd.submit none)).1.points = g.points ∧
    (step g (Cmd.submit none)).1.active_challenge = g.active_challenge ∧
    (step g (Cmd.submit none)).2 =
      [Ev.feedback FeedbackKind.invalidInput, Ev.timerTick GAME_DURATION] := by
  unfold step check_player_answer stop_timer begin_countdown update_timer_display
  simp [he, GAME_DURATION]

/-- C4: a second incorrect attempt resolves the challenge as failed:
the attempt counter reaches 2, the input is disabled, the advance is
scheduled, the expected result is surfaced for display, and any further
submission for this challenge is not accepted (it is a no-op). -/
theorem second_wrong_attempt_resolves_failed (g : GameSession) (c : Challenge)
    (a : Int) (he : g.input_enabled = true) (hc : g.active_challenge = some c)
    (h1 : g.attempts_made = 1)
    (hw : a ≠ calculate_result c.num1 c.num2 c.op) :
    (step g (Cmd.submit (some a))).1.attempts_made = 2 ∧
    (step g (Cmd.submit (some a))).1.input_enabled = false ∧
    (step g (Cmd.submit (some a))).1.pending_advance = true ∧
    Ev.feedback (FeedbackKind.answerRevealed (calculate_result c.num1 c.num2 c.op))
      ∈ (step g (Cmd.submit (some a))).2 ∧
    (∀ x : Option Int,
        step (step g (Cmd.submit (some a))).1 (Cmd.submit x) =
          ((step g (Cmd.submit (some a))).1, [])) := by
  obtain ⟨lvl, pts, ps, ac, am, rt, ap, pc, tr, ie, pa⟩ := g
  simp only at he hc h1
  subst he hc h1
  simp [step, check_player_answer, stop_timer, verify_solution, hw]

theorem update_timer_display_charges (g : GameSession) :
    (update_timer_display g).1.powerup_charges = g.powerup_charges := by
  unfold update_timer_display time_expired
  split
  · rfl
  · split <;> rfl

theorem update_timer_display_powerups (g : GameSession) :
    (update_timer_display g).1.active_powerups = g.active_powerups := by
  unfold update_timer_display time_expired
  split
  · rfl
  · split <;> rfl

theorem begin_countdown_charges (g : GameSession) :
    (begin_countdown g).1.powerup_charges = g.powerup_charges := by
  unfold begin_countdown
  rw [update_timer_display_charges]

theorem begin_countdown_powerups (g : GameSession) :
    (begin_countdown g).1.active_powerups = g.active_powerups := by
  unfold begin_countdown
  rw [update_timer_display_powerups]

theorem verify_solution_charges (g : GameSession) (n1 n2 : Int) (op : Op)
    (a : Int) :
    (verify_solution g n1 n2 op a).session.powerup_charges = g.powerup_charges := by
  unfold verify_solution
  by_cases hc : a = calculate_result n1 n2 op
  · simp [hc]
  · simp only [hc, if_false]
    split_ifs <;> simp [begin_countdown_charges]

theorem verify_solution_powerups (g : GameSession) (n1 n2 : Int) (op : Op)
    (a : Int) :
    (verify_solution g n1 n2 op a).session.active_powerups = g.active_powerups := by
  unfold verify_solution
  by_cases hc : a = calculate_result n1 n2 op
  · simp [hc]
  · simp only [hc, if_false]
    split_ifs <;> simp [begin_countdown_powerups]

theorem apply_powerup_effects_charges (g : GameSession) (p : Int) :
    (apply_powerup_effects g p).session.powerup_charges = g.powerup_charges := by
  unfold apply_powerup_effects
  split_ifs <;> rfl

theorem check_player_answer_charges (g : GameSession) (i : Option Int) :
    (check_player_answer g i).1.powerup_charges = g.powerup_charges := by
  unfold check_player_answer stop_timer
  cases i with
  | none => rw [begin_countdown_charges]
  | some a =>
      simp only []
      split
      · rfl
      · split_ifs <;>
          simp [apply_powerup_effects_charges, verify_solution_charges]

theorem present_challenge_charges (g : GameSession) (level : GameLevel)
    (d : Draws) :
    (present_challenge g level d).1.powerup_charges = g.powerup_charges := by
  simp [present_challenge, begin_countdown_charges]

theorem present_challenge_powerups (g : GameSession) (level : GameLevel)
    (d : Draws) :
    (present_challenge g level d).1.active_powerups = g.active_powerups := by
  simp [present_challenge, begin_countdown_powerups]

theorem advance_to_next_charges (g : GameSession) (d : Draws) :
    (advance_to_next g d).1.powerup_charges = g.powerup_charges := by
  simp only [advance_to_next, show_game_results, stop_timer]
  split
  · rw [present_challenge_charges]
  · rfl

theorem advance_to_next_powerups (g : GameSession) (d : Draws) :
    (advance_to_next g d).1.active_powerups = g.active_powerups := by
  simp only [advance_to_next, show_game_results, stop_timer]
  split
  · rw [present_challenge_powerups]
  · rfl

theorem step_charges_nonneg (g : GameSession) (c : Cmd)
    (h : 0 ≤ g.powerup_charges) : 0 ≤ (step g c).1.powerup_charges := by
  cases c with
  | submit i =>
      simp only [step]
      split
      · rw [check_player_answer_charges]; exact h
      · exact h
  | tick =>
      simp only [step]
      split
      · rw [update_timer_display_charges]; exact h
      · exact h
  | advance d =>
      simp only [step]
      split
      · rw [advance_to_next_charges]; exact h
      · exact h
  | timeBoost =>
      simp only [step]
      unfold activate_time_boost
      split_ifs with hpos
      · simp; omega
      · exact h
  | doublePoints =>
      simp only [step]
      unfold activate_double_points
      split_ifs with hpos hz
      · simp; omega
      · exact h
      · exact h

theorem run_charges_nonneg (cs : List Cmd) (g : GameSession)
    (h : 0 ≤ g.powerup_charges) : 0 ≤ (run g cs).1.powerup_charges := by
  induction cs generalizing g with
  | nil => exact h
  | cons c cs ih => simpa [run] using ih (step g c).1 (step_charges_nonneg g c h)

theorem start_space_adventure_charges (level : GameLevel) (d : Draws) :
    (start_space_adventure level d).1.powerup_charges = 3 := by
  simp [start_space_adventure, present_challenge_charges, init_new_game]

/-- C6: across every command sequence of a session started with 3
charges the charge count is never negative, and an activation with zero
charges remaining signals denial and leaves the whole session state
(charges, remaining time, active power-ups) unchanged. -/
theorem powerup_charges_never_negative :
    (∀ (level : GameLevel) (d : Draws) (cs : List Cmd),
        0 ≤ (run (start_space_adventure level d).1 cs).1.powerup_charges) ∧
    (∀ g : GameSession, g.powerup_charges = 0 →
        activate_time_boost g = (g, [Ev.feedback FeedbackKind.noBoosts]) ∧
        activate_double_points g = (g, [Ev.feedback FeedbackKind.noBoosts])) := by
  constructor
  · intro level d cs
    apply run_charges_nonneg
    rw [start_space_adventure_charges]
    omega
  · intro g h0
    constructor
    · unfold activate_time_boost
      rw [h0]
      simp
    · unfold activate_double_points
      rw [h0]
      simp

/-- C6 witness: spec scenario 5 — three TimeBoost activations from
charges 3 leave the count nonnegative, and at zero charges activation is
denied with no side effect. -/
theorem powerup_charges_never_negative_witness :
    0 ≤ (run (start_space_adventure BEGINNER ⟨5, 3, Op.add, 2⟩).1
          [Cmd.timeBoost, Cmd.timeBoost, Cmd.timeBoost,
           Cmd.timeBoost]).1.powerup_charges ∧
    gZero.powerup_charges = 0 ∧
    activate_time_boost gZero = (gZero, [Ev.feedback FeedbackKind.noBoosts]) :=
  ⟨powerup_charges_never_negative.1 BEGINNER ⟨5, 3, Op.add, 2⟩
      [Cmd.timeBoost, Cmd.timeBoost, Cmd.timeBoost, Cmd.timeBoost],
   rfl,
   (powerup_charges_never_negative.2 gZero rfl).1⟩

/-- C2 counterexample: a concrete run in which a challenge ends without
a correct answer (two incorrect attempts, answer revealed) and the next
challenge is then presented, yet DoublePoints is still in the active
power-up set without re-activation — the claim is false on the code. -/
theorem double_points_not_discarded_on_failure :
    (run (start_space_adventure BEGINNER ⟨5, 3, Op.add, 2⟩).1
        [Cmd.doublePoints, Cmd.submit (some 0), Cmd.submit (some 0),
         Cmd.advance ⟨5, 3, Op.add, 2⟩]).1.active_powerups =
      [PowerUp.double_points] ∧
    (run (start_space_adventure BEGINNER ⟨5, 3, Op.add, 2⟩).1
        [Cmd.doublePoints, Cmd.submit (some 0), Cmd.submit (some 0),
         Cmd.advance ⟨5, 3, Op.add, 2⟩]).1.active_challenge =
      some ⟨5, 3, Op.add⟩ ∧
    Ev.feedback (FeedbackKind.answerRevealed 8)
      ∈ (run (start_space_adventure BEGINNER ⟨5, 3, Op.add, 2⟩).1
          [Cmd.doublePoints, Cmd.submit (some 0), Cmd.submit (some 0),
           Cmd.advance ⟨5, 3, Op.add, 2⟩]).2 ∧
    Ev.challengePresented 2
      ∈ (run (start_space_adventure BEGINNER ⟨5, 3, Op.add, 2⟩).1
          [Cmd.doublePoints, Cmd.submit (some 0), Cmd.submit (some 0),
           Cmd.advance ⟨5, 3, Op.add, 2⟩]).2 := by
  refine ⟨by decide, by decide, by decide, by decide⟩

/-- Helper: an incorrect answer never verifies as correct. -/
theorem verify_solution_wrong_not_correct (g : GameSession) (n1 n2 : Int)
    (op : Op) (a : Int) (hw : a ≠ calculate_result n1 n2 op) :
    (verify_solution g n1 n2 op a).is_correct = false := by
  unfold verify_solution
  simp only [hw, if_false]
  split_ifs <;> rfl

/-- C2 amended: an active DoublePoints effect is NOT discarded when a
challenge ends without a correct answer; the active power-up set is
unchanged by an incorrect submission, by a timer callback (including
expiry) and by advancing to the next challenge, so DoublePoints persists
until consumed by a correct answer or the session is reset. -/
theorem double_points_persists_across_failure (g : GameSession) (c : Challenge)
    (a : Int) (d : Draws) (hc : g.active_challenge = some c)
    (hw : a ≠ calculate_result c.num1 c.num2 c.op) :
    (step g (Cmd.submit (some a))).1.active_powerups = g.active_powerups ∧
    (step g Cmd.tick).1.active_powerups = g.active_powerups ∧
    (step g (Cmd.advance d)).1.active_powerups = g.active_powerups := by
  refine ⟨?_, ?_, ?_⟩
  · simp only [step]
    split
    · unfold check_player_answer stop_timer
      simp only [hc]
      rw [verify_solution_wrong_not_correct _ _ _ _ _ hw]
      simp only [Bool.false_eq_true, if_false]
      split_ifs <;> simp [verify_solution_powerups]
    · rfl
  · simp only [step]
    split
    · rw [update_timer_display_powerups]
    · rfl
  · simp only [step]
    split
    · rw [advance_to_next_powerups]
    · rfl

/-- C2 amended witness. -/
theorem double_points_persists_across_failure_witness :
    (step gTest (Cmd.submit (some 0))).1.active_powerups = gTest.active_powerups ∧
    (step gTest Cmd.tick).1.active_powerups = gTest.active_powerups ∧
    (step gTest (Cmd.advance ⟨5, 3, Op.add, 2⟩)).1.active_powerups =
      gTest.active_powerups :=
  double_points_persists_across_failure gTest ⟨5, 3, Op.add⟩ 0
    ⟨5, 3, Op.add, 2⟩ rfl (by decide)

/-- C5 witness. -/
theorem invalid_submission_recovered_witness :
    (step gTest (Cmd.submit none)).1 =
      { gTest with remaining_time := GAME_DURATION - 1, timer_running := true } ∧
    (step gTest (Cmd.submit none)).1.attempts_made = gTest.attempts_made ∧
    (step gTest (Cmd.submit none)).1.points = gTest.points ∧
    (step gTest (Cmd.submit none)).1.active_challenge = gTest.active_challenge ∧
    (step gTest (Cmd.submit none)).2 =
      [Ev.feedback FeedbackKind.invalidInput, Ev.timerTick GAME_DURATION] :=
  invalid_submission_recovered gTest rfl

/-- C4 witness. -/
theorem second_wrong_attempt_resolves_failed_witness :
    (step gTest (Cmd.submit (some 0))).1.attempts_made = 2 ∧
    (step gTest (Cmd.submit (some 0))).1.input_enabled = false ∧
    (step gTest (Cmd.submit (some 0))).1.pending_advance = true ∧
    Ev.feedback (FeedbackKind.answerRevealed (calculate_result 5 3 Op.add))
      ∈ (step gTest (Cmd.submit (some 0))).2 ∧
    step (step gTest (Cmd.submit (some 0))).1 (Cmd.submit (some 1)) =
      ((step gTest (Cmd.submit (some 0))).1, []) :=
  ⟨(second_wrong_attempt_resolves_failed gTest ⟨5, 3, Op.add⟩ 0 rfl rfl rfl
      (by decide)).1,
   (second_wrong_attempt_resolves_failed gTest ⟨5, 3, Op.add⟩ 0 rfl rfl rfl
      (by decide)).2.1,
   (second_wrong_attempt_resolves_failed gTest ⟨5, 3, Op.add⟩ 0 rfl rfl rfl
      (by decide)).2.2.1,
   (second_wrong_attempt_resolves_failed gTest ⟨5, 3, Op.add⟩ 0 rfl rfl rfl
      (by decide)).2.2.2.1,
   (second_wrong_attempt_resolves_failed gTest ⟨5, 3, Op.add⟩ 0 rfl rfl rfl
      (by decide)).2.2.2.2 (some 1)⟩

/-- C7: a tick with nonnegative remaining time displays it, decrements
it and reschedules; when remaining time has passed below zero the next
tick fires the expiry notification with the expected answer and stops
(no reschedule), and a stopped timer ticks no more; concretely, for the
countdown started at 25 seconds with no submission, the 26 following
ticks contain exactly one expiry event, carrying the expected answer 8,
and the timer is stopped afterwards. -/
theorem countdown_expires_once :
    (∀ g : GameSession, g.timer_running = false → step g Cmd.tick = (g, [])) ∧
    (∀ g : GameSession, g.timer_running = true → 0 ≤ g.remaining_time →
        step g Cmd.tick =
          ({ g with remaining_time := g.remaining_time - 1,
                    timer_running := true },
           [Ev.timerTick g.remaining_time])) ∧
    (∀ (g : GameSession) (c : Challenge), g.timer_running = true →
        g.remaining_time < 0 → g.active_challenge = some c →
        step g Cmd.tick =
          ({ g with timer_running := false, input_enabled := false,
                    pending_advance := true },
           [Ev.expiry (calculate_result c.num1 c.num2 c.op)])) ∧
    ((run (start_space_adventure BEGINNER ⟨5, 3, Op.add, 2⟩).1
        (List.replicate 26 Cmd.tick)).2.countP
        (fun e => match e with | Ev.expiry _ => true | _ => false) = 1) ∧
    (Ev.expiry 8 ∈ (run (start_space_adventure BEGINNER ⟨5, 3, Op.add, 2⟩).1
        (List.replicate 26 Cmd.tick)).2) ∧
    ((run (start_space_adventure BEGINNER ⟨5, 3, Op.add, 2⟩).1
        (List.replicate 26 Cmd.tick)).1.timer_running = false) := by
  refine ⟨?_, ?_, ?_, by decide, by decide, by decide⟩
  · intro g h
    simp [step, h]
  · intro g ht h0
    obtain ⟨lvl, pts, ps, ac, am, rt, ap, pc, tr, ie, pa⟩ := g
    simp only at ht h0 ⊢
    subst ht
    simp [step, update_timer_display, h0]
  · intro g c ht h0 hc
    obtain ⟨lvl, pts, ps, ac, am, rt, ap, pc, tr, ie, pa⟩ := g
    simp only at ht hc h0 ⊢
    subst ht hc
    simp [step, update_timer_display, time_expired, show ¬ (0 : Int) ≤ rt by omega]

/-- C7 witness: a tick on a state whose remaining time is below zero
fires the expiry with the expected answer. -/
theorem countdown_expires_once_witness :
    step { gTest with remaining_time := -1 } Cmd.tick =
      ({ gTest with remaining_time := -1, timer_running := false,
                    input_enabled := false, pending_advance := true },
       [Ev.expiry (calculate_result 5 3 Op.add)]) :=
  countdown_expires_once.2.2.1 { gTest with remaining_time := -1 }
    ⟨5, 3, Op.add⟩ rfl (by decide) rfl

/-- C9: a reachable session run ends with final cumulative score 165,
strictly exceeding the reported maximum score 15 * MAX_CHALLENGES = 150:
a first-try correct answer with DoublePoints active awards 30 points
while the reported maximum assumes at most 15 per challenge. -/
theorem score_can_exceed_reported_max :
    ∃ (level : GameLevel) (d : Draws) (cs : List Cmd),
      (run (start_space_adventure level d).1 cs).1.points = 165 ∧
      (15 : Int) * (MAX_CHALLENGES : Int) = 150 ∧
      (run (start_space_adventure level d).1 cs).1.points >
        15 * (MAX_CHALLENGES : Int) ∧
      Ev.sessionFinished 165 150 "COSMIC GENIUS"
          "Your math skills are out of this world!"
        ∈ (run (start_space_adventure level d).1 cs).2 := by
  refine ⟨BEGINNER, ⟨5, 3, Op.add, 2⟩,
    [Cmd.doublePoints,
     Cmd.submit (some 8), Cmd.advance ⟨5, 3, Op.add, 2⟩,
     Cmd.submit (some 8), Cmd.advance ⟨5, 3, Op.add, 2⟩,
     Cmd.submit (some 8), Cmd.advance ⟨5, 3, Op.add, 2⟩,
     Cmd.submit (some 8), Cmd.advance ⟨5, 3, Op.add, 2⟩,
     Cmd.submit (some 8), Cmd.advance ⟨5, 3, Op.add, 2⟩,
     Cmd.submit (some 8), Cmd.advance ⟨5, 3, Op.add, 2⟩,
     Cmd.submit (some 8), Cmd.advance ⟨5, 3, Op.add, 2⟩,
     Cmd.submit (some 8), Cmd.advance ⟨5, 3, Op.add, 2⟩,
     Cmd.submit (some 8), Cmd.advance ⟨5, 3, Op.add, 2⟩,
     Cmd.submit (some 8), Cmd.advance ⟨5, 3, Op.add, 2⟩],
    by decide, by decide, by decide, by decide⟩

/-- C10: begin_countdown resets remaining time to the full configured
duration regardless of its previous value, so seconds added by TimeBoost
to the current challenge are discarded both on an invalid (non-integer)
submission and on a retry after a first incorrect attempt. -/
theorem timer_restart_discards_boost :
    (∀ (g : GameSession) (t : Int),
        begin_countdown { g with remaining_time := t } = begin_countdown g) ∧
    (∀ g : GameSession,
        (begin_countdown g).1.remaining_time = GAME_DURATION - 1 ∧
        (begin_countdown g).1.timer_running = true ∧
        (begin_countdown g).2 = [Ev.timerTick GAME_DURATION]) ∧
    (∀ g : GameSession, g.input_enabled = true →
        (step g (Cmd.submit none)).1.remaining_time = GAME_DURATION - 1) ∧
    (∀ (g : GameSession) (c : Challenge) (a : Int),
        g.input_enabled = true → g.active_challenge = some c →
        g.attempts_made = 0 → a ≠ calculate_result c.num1 c.num2 c.op →
        (step g (Cmd.submit (some a))).1.remaining_time = GAME_DURATION - 1) := by
  refine ⟨?_, ?_, ?_, ?_⟩
  · intro g t
    rfl
  · intro g
    refine ⟨?_, ?_, ?_⟩ <;>
      simp [begin_countdown, update_timer_display, GAME_DURATION]
  · intro g he
    unfold step check_player_answer stop_timer begin_countdown
      update_timer_display
    simp [he, GAME_DURATION]
  · intro g c a he hc h0 hw
    obtain ⟨lvl, pts, ps, ac, am, rt, ap, pc, tr, ie, pa⟩ := g
    simp only at he hc h0 ⊢
    subst he hc h0
    simp [step, check_player_answer, stop_timer, verify_solution, hw,
      begin_countdown, update_timer_display, GAME_DURATION]

/-- C10 witness: after a TimeBoost raised the remaining time to 39
seconds, an invalid submission restarts the timer and the boost seconds
are gone. -/
theorem timer_restart_discards_boost_witness :
    (activate_time_boost gTest).1.remaining_time = 39 ∧
    (step (activate_time_boost gTest).1 (Cmd.submit none)).1.remaining_time =
      GAME_DURATION - 1 :=
  ⟨by decide,
   timer_restart_discards_boost.2.2.1 (activate_time_boost gTest).1 (by decide)⟩
